import Mathlib

/-!
Verification development for the browser client of the AI Crypto Portfolio
Tracker (frontend/js: api.js, auth.js, dashboard.js, portfolio.js, config.js).

The JavaScript source is shallowly embedded: JS objects used as string-keyed
maps (headers, the DOM by element id, localStorage) become functions
`String → Option String`; each `async` sequence becomes explicit state
passing over an `AppState`; every `await apiCall(...)` outcome is supplied by
an oracle value of type `Except String α` (the thrown error carries its
message string); JS string truthiness is modelled explicitly (the empty
string is falsy).
-/

namespace CryptoTracker

/-- Boolean prefix test on character lists (helper for the substring test). -/
def hasPre : List Char → List Char → Bool
  | _, [] => true
  | [], _ :: _ => false
  | a :: as, b :: bs => a == b && hasPre as bs

/-- Boolean substring test on character lists. -/
def hasSub : List Char → List Char → Bool
  | [], pat => pat.isEmpty
  | a :: as, pat => hasPre (a :: as) pat || hasSub as pat

/-- `strContains s pat`: JS `s.includes(pat)`. -/
def strContains (s pat : String) : Bool :=
  hasSub s.data pat.data

/-- Strip leading and trailing whitespace from a character list. -/
def trimChars (l : List Char) : List Char :=
  ((l.dropWhile Char.isWhitespace).reverse.dropWhile Char.isWhitespace).reverse

/-- JS `s.trim()` (kernel-reducible embedding of string trimming). -/
def jsTrim (s : String) : String :=
  String.mk (trimChars s.data)

/-- The 401 marker test used by the init handlers: `error.message.includes("401")`. -/
def contains401 (msg : String) : Bool :=
  strContains msg "401"

/-- JS truthiness of an optional string value: `undefined`/`null` and the
empty string are falsy, every other string is truthy. -/
def jsTruthyStr : Option String → Bool
  | none => false
  | some s => s != ""

/-- The parsed JSON body of a response, restricted to the two fields the
gateway reads (`data.error`, `data.detail`); a missing field is `none`. -/
structure JsonBody where
  error : Option String
  detail : Option String
deriving DecidableEq, Repr

/-- A remote response as seen by `apiCall` after `response.json()` succeeds. -/
structure ApiResponse where
  status : Nat
  body : JsonBody
deriving DecidableEq, Repr

/-- `response.ok`: status in the 2xx range. -/
def respOkStatus (s : Nat) : Bool :=
  decide (200 ≤ s ∧ s ≤ 299)

/-- api.js: the message of the thrown error on a non-ok response:
`data.error || data.detail || "Request failed"` (JS `||` skips falsy values,
so a present-but-empty field is skipped). -/
def errMessage (body : JsonBody) : String :=
  if jsTruthyStr body.error then body.error.getD ""
  else if jsTruthyStr body.detail then body.detail.getD ""
  else "Request failed"

/-- api.js `apiCall`, outcome classification: on `response.ok` return the
parsed body, otherwise throw `new Error(data.error || data.detail ||
"Request failed")` (the catch block only logs and rethrows, so this is also
what the caller receives). -/
def apiCallResult (r : ApiResponse) : Except String JsonBody :=
  if respOkStatus r.status then Except.ok r.body
  else Except.error (errMessage r.body)

/-- The options object passed to `apiCall`, restricted to the fields the
header logic reads: caller-supplied headers (a string-keyed map) and
`skipAuth`. -/
structure ApiOptions where
  headers : String → Option String
  skipAuth : Bool

/-- api.js `apiCall`, header construction: start from
`Content-Type: application/json` merged with `options.headers` (caller keys win
on collision), then, when a token is stored (truthy) and `skipAuth` is not
set, overwrite `Authorization` with `Bearer <token>`. -/
def requestHeaders (token : Option String) (o : ApiOptions) : String → Option String :=
  let merged : String → Option String := fun k =>
    match o.headers k with
    | some v => some v
    | none => if k = "Content-Type" then some "application/json" else none
  if jsTruthyStr token && !o.skipAuth then
    fun k => if k = "Authorization" then some ("Bearer " ++ (token.getD "")) else merged k
  else merged

/-- config.js: the base URL of the remote API. -/
def API_BASE_URL : String := "http://localhost:8000"

/-- config.js endpoint `ME`. -/
def ME_URL : String := API_BASE_URL ++ "/api/auth/me"

/-- config.js endpoint `REGISTER`. -/
def REGISTER_URL : String := API_BASE_URL ++ "/api/auth/register"

/-- config.js endpoint `PORTFOLIOS`. -/
def PORTFOLIOS_URL : String := API_BASE_URL ++ "/api/portfolio"

/-- config.js endpoint `PORTFOLIO_BY_ID`. -/
def PORTFOLIO_BY_ID_URL (id : Nat) : String :=
  API_BASE_URL ++ "/api/portfolio/" ++ toString id

/-- config.js endpoint `PORTFOLIO_HOLDINGS`. -/
def PORTFOLIO_HOLDINGS_URL (id : Nat) : String :=
  PORTFOLIO_BY_ID_URL id ++ "/holdings"

/-- config.js endpoint `PORTFOLIO_VALUATION`. -/
def PORTFOLIO_VALUATION_URL (id : Nat) : String :=
  PORTFOLIO_BY_ID_URL id ++ "/valuation"

/-- The mutable browser-side state the scripts touch: the two localStorage
slots (`access_token`, `refresh_token`), the DOM as a map from element id to
its displayed text (`none` = the element does not exist), the last value
assigned to `window.location.href`, the `alert` messages shown, and the list
of network requests issued (URLs, in order of issuance). -/
structure AppState where
  access : Option String
  refresh : Option String
  dom : String → Option String
  redirect : Option String
  alerts : List String
  requests : List String

/-- Write the text of a DOM element (creating/overwriting that id). -/
def setDom (st : AppState) (k v : String) : AppState :=
  { st with dom := fun j => if j = k then some v else st.dom j }

/-- Record that a network request to `url` was issued. -/
def issueRequest (url : String) (st : AppState) : AppState :=
  { st with requests := st.requests ++ [url] }

/-- api.js `isAuthenticated`: `!!getToken()` (an empty stored token is falsy). -/
def isAuthenticatedS (st : AppState) : Bool :=
  jsTruthyStr st.access

/-- api.js `removeTokens`: remove both localStorage slots. -/
def removeTokensS (st : AppState) : AppState :=
  { st with access := none, refresh := none }

/-- api.js `saveToken`: always write the access slot; write the refresh slot
only when the `refreshToken` argument is truthy (`if (refreshToken) ...`). -/
def saveToken (token : String) (refreshToken : Option String) (st : AppState) : AppState :=
  { st with
    access := some token
    refresh := if jsTruthyStr refreshToken then refreshToken else st.refresh }

/-- The current-user profile returned by `GET /api/auth/me`. -/
structure UserInfo where
  username : String
  email : String

/-- One entry of the portfolio list returned by `GET /api/portfolio`. -/
structure PortfolioItem where
  id : Nat
  name : String
  description : Option String
  is_public : Bool
  holdings_count : Nat
deriving DecidableEq

/-- A portfolio valuation response, restricted to the field the dashboard
reads. The JS float `total_value_usd` is embedded as an exact amount of
cents; a missing/falsy field is `none`. -/
structure Valuation where
  total_value_usd : Option Nat
deriving DecidableEq

/-- Split a digit list (least significant first) into groups of three. -/
def chunk3 : List Char → List (List Char)
  | a :: b :: c :: d :: rest => [a, b, c] :: chunk3 (d :: rest)
  | l => [l]

/-- Decimal rendering of a natural number with en-US thousands separators. -/
def commaGrouped (n : Nat) : String :=
  String.mk ((List.intercalate [','] (chunk3 (toString n).data.reverse)).reverse)

/-- Two-digit rendering of a cents remainder. -/
def twoDigits (n : Nat) : String :=
  if n < 10 then "0" ++ toString n else toString n

/-- The string that `toLocaleString` with the en-US locale and two fraction
digits produces for a nonnegative dollar amount given in cents, with the
leading dollar sign of the template. -/
def usdDisplay (cents : Nat) : String :=
  "$" ++ commaGrouped (cents / 100) ++ "." ++ twoDigits (cents % 100)

/-- The id of the per-portfolio value element rendered on a dashboard card. -/
def valueElemId (pid : Nat) : String :=
  "portfolio-value-" ++ toString pid

/-- dashboard.js `loadPortfolioValuation`, handling of an arrived valuation
outcome: on success, if the target element still exists, display the
formatted `total_value_usd || 0`; on failure, if the target element still
exists, display the literal zero string; a missing element is a no-op in
both branches. -/
def valuationArrival (pid : Nat) (outcome : Except String Valuation) (st : AppState) : AppState :=
  match outcome with
  | Except.ok v =>
    match st.dom (valueElemId pid) with
    | some _ => setDom st (valueElemId pid) (usdDisplay (v.total_value_usd.getD 0))
    | none => st
  | Except.error _ =>
    match st.dom (valueElemId pid) with
    | some _ => setDom st (valueElemId pid) "$0.00"
    | none => st

/-- dashboard.js `loadPortfolioValuation`: issue the valuation request, then
handle the outcome (its own try/catch never lets an error escape). -/
def loadPortfolioValuationS (pid : Nat) (outcome : Except String Valuation) (st : AppState) : AppState :=
  valuationArrival pid outcome (issueRequest (PORTFOLIO_VALUATION_URL pid) st)

/-- dashboard.js `updateDashboardStats`: portfolio count and summed holdings
count come from the fetched list alone; the two money stats are reset to the
zero string (later updated by valuations, per the source comment). -/
def updateDashboardStatsS (portfolios : List PortfolioItem) (st : AppState) : AppState :=
  let st1 := setDom st "portfolioCount" (toString portfolios.length)
  let st2 := setDom st1 "coinCount"
    (toString (portfolios.foldl (fun sum p => sum + p.holdings_count) 0))
  let st3 := setDom st2 "totalValue" "$0.00"
  setDom st3 "totalProfit" "$0.00"

/-- dashboard.js `renderPortfolios`: the empty-list placeholder, or one card
per portfolio (the HTML template is abstracted to a tag string; the per-card
value element is created showing `Loading...`), followed by the independent
per-portfolio valuation fetches. -/
def renderPortfoliosS (valuations : Nat → Except String Valuation)
    (portfolios : List PortfolioItem) (st : AppState) : AppState :=
  if portfolios.isEmpty then
    setDom st "portfoliosList" "No portfolios yet. Create your first portfolio to get started!"
  else
    let st1 := setDom st "portfoliosList" "portfolio-cards"
    let st2 := portfolios.foldl (fun s p => setDom s (valueElemId p.id) "Loading...") st1
    portfolios.foldl (fun s p => loadPortfolioValuationS p.id (valuations p.id) s) st2

/-- dashboard.js / portfolio.js `loadUserInfo`: issue the `ME` request; on
success render the user info; on failure only log — the error never
escapes (the second component is the message of an escaping error, always
`none` here). -/
def loadUserInfoS (res : Except String UserInfo) (st : AppState) : AppState × Option String :=
  let st1 := issueRequest ME_URL st
  match res with
  | Except.ok u => (setDom st1 "userInfo" (u.username ++ " " ++ u.email), none)
  | Except.error _ => (st1, none)

/-- The outcomes of the network calls a dashboard page load can make. -/
structure DashOracle where
  meResult : Except String UserInfo
  portfoliosResult : Except String (List PortfolioItem)
  valuations : Nat → Except String Valuation

/-- dashboard.js `loadPortfolios`: issue the list request; on success update
stats and render (including valuation fetches); on failure render the inline
error — the error never escapes. -/
def loadPortfoliosS (o : DashOracle) (st : AppState) : AppState × Option String :=
  let st1 := issueRequest PORTFOLIOS_URL st
  match o.portfoliosResult with
  | Except.ok ps => (renderPortfoliosS o.valuations ps (updateDashboardStatsS ps st1), none)
  | Except.error _ =>
    (setDom st1 "portfoliosList" "Failed to load portfolios. Please refresh the page.", none)

/-- The `catch` block of `init` in dashboard.js and portfolio.js: if the
escaped error message contains the 401 marker, clear both tokens and
redirect to the entry view; otherwise only log. -/
def initCatch401 (msg : String) (st : AppState) : AppState :=
  if contains401 msg then { removeTokensS st with redirect := some "index.html" } else st

/-- dashboard.js `init`: await `loadUserInfo`, then `loadPortfolios`, then
`setupEventListeners` (listener registration, no modelled state change),
inside one try/catch whose handler is `initCatch401`. Each awaited step
returns the message of an escaping error alongside the state it reached;
both steps handle their own errors, so that message is always `none`. -/
def dashboardInit (o : DashOracle) (st : AppState) : AppState :=
  match loadUserInfoS o.meResult st with
  | (st1, some msg) => initCatch401 msg st1
  | (st1, none) =>
    match loadPortfoliosS o st1 with
    | (st2, some msg) => initCatch401 msg st2
    | (st2, none) => st2

/-- dashboard.js module load: the top-level
`if (!isAuthenticated()) window.location.href = "index.html";` followed —
unconditionally, since the assignment does not halt the script — by
`init()`. -/
def dashboardPageLoad (o : DashOracle) (st : AppState) : AppState :=
  let st0 := if isAuthenticatedS st then st else { st with redirect := some "index.html" }
  dashboardInit o st0

/-- The portfolio-detail response of `GET /api/portfolio/{id}`. -/
structure PortfolioDetail where
  name : String
  description : Option String

/-- One valuation holding row (amounts embedded as exact cents; quantity as
an abstract numeric token). -/
structure HoldingVal where
  coin_id : String
  symbol : String
  quantity : Nat
  current_price : Nat
  holding_value : Nat
  average_buy_price : Option Nat
  profit_loss : Option Int

/-- The holdings-list response of `GET /api/portfolio/{id}/holdings`. -/
structure HoldingsData where
  holdings : Option (List HoldingVal)

/-- The full valuation response used by the portfolio-detail view. -/
structure ValuationFull where
  total_value_usd : Option Nat
  holdings : Option (List HoldingVal)

/-- portfolio.js `updatePortfolioStats`: total value (`|| 0` fallback),
holdings count (`?.length || 0`), and the accumulated profit/loss (the JS
guard `if (h.profit_loss)` only skips falsy values, i.e. missing or zero,
which is additively neutral, so it is embedded as adding `getD 0`); the
positive/negative CSS class is not modelled. -/
def updatePortfolioStatsS (v : ValuationFull) (st : AppState) : AppState :=
  let totalPL : Int := (v.holdings.getD []).foldl (fun acc h => acc + h.profit_loss.getD 0) 0
  let st1 := setDom st "totalValue" (usdDisplay (v.total_value_usd.getD 0))
  let st2 := setDom st1 "totalCoins" (toString (v.holdings.getD []).length)
  setDom st2 "totalProfitLoss" (usdDisplay totalPL.natAbs)

/-- portfolio.js `renderHoldings`: the empty placeholder or the holdings
table (the HTML row template is abstracted to a tag string). -/
def renderHoldingsS (hs : List HoldingVal) (st : AppState) : AppState :=
  if hs.isEmpty then
    setDom st "holdingsContainer" "No coins in this portfolio yet. Click Add Coin to get started!"
  else
    setDom st "holdingsContainer" "holdings-table"

/-- The outcomes of the network calls a portfolio-detail page load can make. -/
structure PortOracle where
  meResult : Except String UserInfo
  portfolioResult : Except String PortfolioDetail
  holdingsResult : Except String HoldingsData
  valuationResult : Except String ValuationFull

/-- portfolio.js `loadPortfolio`: issue the request; on success render name
and description (`|| "No description"` on a falsy description); on failure
the catch of the function itself alerts and redirects to dashboard.html — the error
never escapes. -/
def loadPortfolioS (pid : Nat) (res : Except String PortfolioDetail)
    (st : AppState) : AppState × Option String :=
  let st1 := issueRequest (PORTFOLIO_BY_ID_URL pid) st
  match res with
  | Except.ok p =>
    (setDom (setDom st1 "portfolioName" p.name) "portfolioDescription"
      (if jsTruthyStr p.description then p.description.getD "" else "No description"), none)
  | Except.error _ =>
    ({ st1 with
        alerts := st1.alerts ++ ["Portfolio not found"]
        redirect := some "dashboard.html" }, none)

/-- portfolio.js `loadHoldings`: await the holdings request then the
valuation request inside one try; on success update stats and render the
valuation holdings (`valuation.holdings || []`); on any failure render the
inline error — the error never escapes. -/
def loadHoldingsS (pid : Nat) (hres : Except String HoldingsData)
    (vres : Except String ValuationFull) (st : AppState) : AppState × Option String :=
  let st1 := issueRequest (PORTFOLIO_HOLDINGS_URL pid) st
  match hres with
  | Except.error _ => (setDom st1 "holdingsContainer" "Failed to load holdings", none)
  | Except.ok _ =>
    let st2 := issueRequest (PORTFOLIO_VALUATION_URL pid) st1
    match vres with
    | Except.error _ => (setDom st2 "holdingsContainer" "Failed to load holdings", none)
    | Except.ok v => (renderHoldingsS (v.holdings.getD []) (updatePortfolioStatsS v st2), none)

/-- portfolio.js `init`: await `loadUserInfo`, `loadPortfolio`,
`loadHoldings`, then `setupEventListeners`, inside one try/catch whose
handler is `initCatch401`; each awaited step handles its own errors. -/
def portfolioInit (pid : Nat) (o : PortOracle) (st : AppState) : AppState :=
  match loadUserInfoS o.meResult st with
  | (st1, some msg) => initCatch401 msg st1
  | (st1, none) =>
    match loadPortfolioS pid o.portfolioResult st1 with
    | (st2, some msg) => initCatch401 msg st2
    | (st2, none) =>
      match loadHoldingsS pid o.holdingsResult o.valuationResult st2 with
      | (st3, some msg) => initCatch401 msg st3
      | (st3, none) => st3

/-- An observable action of the coin-search input handler. -/
inductive SearchActionT where
  | search (q : String)
  | hideResults
deriving DecidableEq

/-- portfolio.js `setupEventListeners`, coin-search wiring, run on a timed
input stream. `pending` is the live `setTimeout` (deadline, query); each
input event at time `t` first observes a pending search whose deadline has
already passed (it fired and issued its call before the keystroke), then
`clearTimeout` discards a still-live one; a trimmed query shorter than 2
hides the results and schedules nothing, otherwise a search for the trimmed
query is scheduled 300 time-units later; when the stream ends a still
pending search fires. -/
def debounceRun (pending : Option (Nat × String)) : List (Nat × String) → List SearchActionT
  | [] =>
    match pending with
    | some (_, q) => [SearchActionT.search q]
    | none => []
  | (t, s) :: rest =>
    let fired : List SearchActionT :=
      match pending with
      | some (d, q) => if d ≤ t then [SearchActionT.search q] else []
      | none => []
    if (jsTrim s).length < 2 then fired ++ SearchActionT.hideResults :: debounceRun none rest
    else fired ++ debounceRun (some (t + 300, jsTrim s)) rest

/-- The search calls occurring in an action trace. -/
def searchesOf (as : List SearchActionT) : List String :=
  as.filterMap (fun a =>
    match a with
    | SearchActionT.search q => some q
    | SearchActionT.hideResults => none)

/-- auth.js `showMessage`: set the message element text and its class
string. -/
def showMessageS (msg ty : String) (st : AppState) : AppState :=
  setDom (setDom st "message" msg) "messageClass" ("message " ++ ty)

/-- The values read from the registration form. -/
structure RegisterForm where
  email : String
  username : String
  fullName : String
  password : String

/-- auth.js register submit handler: a password shorter than 8 characters
shows the inline error and returns before any network call; otherwise the
register request is issued and its outcome reported (the delayed
form-switch `setTimeout` is collapsed into the success branch). -/
def registerSubmit (form : RegisterForm) (res : Except String Unit) (st : AppState) : AppState :=
  if form.password.length < 8 then
    showMessageS "Password must be at least 8 characters" "error" st
  else
    let st1 := showMessageS "Creating account..." "success" st
    let st2 := issueRequest REGISTER_URL st1
    match res with
    | Except.ok _ =>
      let st3 := showMessageS "Account created! Please login." "success" st2
      setDom st3 "loginEmail" form.email
    | Except.error msg =>
      showMessageS (if msg != "" then msg else "Registration failed. Please try again.")
        "error" st2

/-- A DOM with no elements. -/
def emptyDom : String → Option String := fun _ => none

/-- An example DOM: the value elements of portfolios 1 and 2 exist. -/
def exDom : String → Option String := fun k =>
  if k = valueElemId 1 then some "Loading..."
  else if k = valueElemId 2 then some "$5.00"
  else none

/-- An example authenticated state (both tokens stored). -/
def exSt : AppState := ⟨some "T", some "R", exDom, none, [], []⟩

/-- An example unauthenticated state (no tokens, empty DOM). -/
def exUnauthSt : AppState := ⟨none, none, emptyDom, none, [], []⟩

/-- A dashboard run whose `ME` call fails with a message carrying the 401
marker (an expired token surfacing on the first fetch). -/
def ex401Oracle : DashOracle :=
  ⟨Except.error "401 Unauthorized", Except.ok [], fun _ => Except.error "x"⟩

/-- A dashboard run where every call fails with a generic message. -/
def exFailOracle : DashOracle :=
  ⟨Except.error "boom", Except.error "boom", fun _ => Except.error "x"⟩

/-- A portfolio-detail run where every call fails with a 401-marked
message. -/
def exPortOracle : PortOracle :=
  ⟨Except.error "401 a", Except.error "401 b", Except.error "401 c", Except.error "401 d"⟩

/-- Caller-supplied headers that already carry an Authorization entry. -/
def exAuthHeaders : String → Option String := fun k =>
  if k = "Authorization" then some "Basic xyz" else none

/-- Options with `skipAuth` set and an Authorization entry supplied by the
caller itself. -/
def exOptsSkip : ApiOptions := ⟨exAuthHeaders, true⟩

/-- Options with no caller headers and `skipAuth` unset. -/
def exOptsPlain : ApiOptions := ⟨fun _ => none, false⟩

/-- The portfolio list of the specification scenario. -/
def exPortfolioList : List PortfolioItem :=
  [⟨1, "Main", none, false, 3⟩, ⟨2, "Alt", none, false, 0⟩]

/-- A registration form whose password has 7 characters. -/
def exShortForm : RegisterForm := ⟨"a@x.com", "alice", "", "pw12345"⟩

/-- Helper: a pending search fires when the input stream ends. -/
theorem debounceRun_nil_some (d : Nat) (q : String) :
    debounceRun (some (d, q)) [] = [SearchActionT.search q] := rfl

/-- Helper: with no pending search, a short input only hides the results. -/
theorem debounceRun_short_none (t : Nat) (s : String) (rest : List (Nat × String))
    (h : (jsTrim s).length < 2) :
    debounceRun none ((t, s) :: rest) = SearchActionT.hideResults :: debounceRun none rest := by
  rw [debounceRun, if_pos h]
  rfl

/-- Helper: with no pending search, a long-enough input schedules one 300
time-units later. -/
theorem debounceRun_long_none (t : Nat) (s : String) (rest : List (Nat × String))
    (h : ¬ (jsTrim s).length < 2) :
    debounceRun none ((t, s) :: rest) = debounceRun (some (t + 300, jsTrim s)) rest := by
  rw [debounceRun, if_neg h]
  rfl

/-- Helper: a keystroke arriving before the pending deadline cancels the
pending search and reschedules for the new query. -/
theorem debounceRun_long_some (d : Nat) (q : String) (t : Nat) (s : String)
    (rest : List (Nat × String)) (hd : ¬ d ≤ t) (h : ¬ (jsTrim s).length < 2) :
    debounceRun (some (d, q)) ((t, s) :: rest) = debounceRun (some (t + 300, jsTrim s)) rest := by
  rw [debounceRun, if_neg h, if_neg hd]
  rfl

/-- Helper: the reduce in `updateDashboardStats` computes the sum of the
holdings counts. -/
theorem foldl_holdings_count (ps : List PortfolioItem) (n : Nat) :
    ps.foldl (fun sum p => sum + p.holdings_count) n
      = n + (ps.map PortfolioItem.holdings_count).sum := by
  induction ps generalizing n with
  | nil => simp
  | cons p rest ih => simp [List.foldl, ih]; omega

/-- C1, counterexample: a response with status 401 whose body carries
`detail: "Unauthorized"` propagates the message `Unauthorized`, which does
not contain the substring `401` — the claimed guarantee fails on this
input. -/
theorem apiCall_401_message_lacks_marker :
    apiCallResult ⟨401, ⟨none, some "Unauthorized"⟩⟩ = Except.error "Unauthorized" ∧
    contains401 "Unauthorized" = false :=
  ⟨rfl, by decide⟩

/-- C1, amended: for every non-2xx response (401 included) the propagated
error message is drawn solely from the body fields via `errMessage`; the
status code is never injected, so the message contains the `401` marker
exactly when the body-derived message happens to contain it. -/
theorem apiCall_message_determined_by_body :
    ∀ (s : Nat) (b : JsonBody), respOkStatus s = false →
    apiCallResult ⟨s, b⟩ = Except.error (errMessage b) := by
  intro s b h
  simp [apiCallResult, h]

/-- Witness for `apiCall_message_determined_by_body` at status 401. -/
theorem apiCall_message_determined_by_body_witness :
    respOkStatus 401 = false ∧
    apiCallResult ⟨401, ⟨none, some "nope"⟩⟩ = Except.error (errMessage ⟨none, some "nope"⟩) :=
  ⟨by decide, apiCall_message_determined_by_body 401 ⟨none, some "nope"⟩ (by decide)⟩

/-- C2: both protected-view init routines evaluated where every awaited API
call fails with a 401-marked message — the per-step handlers swallow the
errors, so the stored tokens survive and no redirect to the entry view
happens (the portfolio-detail view redirects to dashboard.html instead,
without clearing anything); the claimed clear-and-redirect never fires. -/
theorem protected_init_swallows_401_errors :
    (dashboardInit ex401Oracle exSt).access = some "T" ∧
    (dashboardInit ex401Oracle exSt).refresh = some "R" ∧
    (dashboardInit ex401Oracle exSt).redirect = none ∧
    (portfolioInit 7 exPortOracle exSt).access = some "T" ∧
    (portfolioInit 7 exPortOracle exSt).refresh = some "R" ∧
    (portfolioInit 7 exPortOracle exSt).redirect = some "dashboard.html" :=
  ⟨rfl, rfl, rfl, rfl, rfl, rfl⟩

/-- C3, counterexample: with `skipAuth` set and a token in the store, an
Authorization entry supplied in the caller headers survives into the final
request headers, so the headers are not Authorization-free. -/
theorem requestHeaders_skipAuth_caller_authorization_kept :
    exOptsSkip.skipAuth = true ∧
    requestHeaders (some "T") exOptsSkip "Authorization" = some "Basic xyz" :=
  ⟨rfl, rfl⟩

/-- C3, amended: when a non-empty token is stored and `skipAuth` is unset
the final Authorization header is `Bearer <token>` (overriding any caller
entry); when `skipAuth` is set the gateway injects nothing and the final
Authorization entry is exactly whatever the caller headers supplied,
regardless of stored state. -/
theorem requestHeaders_injection_spec :
    (∀ (t : String) (o : ApiOptions), t ≠ "" → o.skipAuth = false →
      requestHeaders (some t) o "Authorization" = some ("Bearer " ++ t)) ∧
    (∀ (token : Option String) (o : ApiOptions), o.skipAuth = true →
      requestHeaders token o "Authorization" = o.headers "Authorization") := by
  constructor
  · intro t o ht hs
    have htt : (t != "") = true := by simpa using ht
    simp [requestHeaders, jsTruthyStr, htt, hs]
  · intro token o hs
    cases h : o.headers "Authorization" <;>
      simp [requestHeaders, hs, h]

/-- Witness for `requestHeaders_injection_spec` on concrete options. -/
theorem requestHeaders_injection_spec_witness :
    ("T" ≠ "" ∧ exOptsPlain.skipAuth = false ∧
      requestHeaders (some "T") exOptsPlain "Authorization" = some ("Bearer " ++ "T")) ∧
    (exOptsSkip.skipAuth = true ∧
      requestHeaders (some "T") exOptsSkip "Authorization" = exOptsSkip.headers "Authorization") :=
  ⟨⟨by decide, rfl, requestHeaders_injection_spec.1 "T" exOptsPlain (by decide) rfl⟩,
   ⟨rfl, requestHeaders_injection_spec.2 (some "T") exOptsSkip rfl⟩⟩

/-- C4, counterexample: a non-2xx body whose `error` field is present but
empty yields the `detail` message, not the (present) `error` field — JS
`||` selects by truthiness, not presence. -/
theorem errMessage_skips_empty_error_field :
    apiCallResult ⟨404, ⟨some "", some "boom"⟩⟩ = Except.error "boom" ∧ "boom" ≠ "" :=
  ⟨rfl, by decide⟩

/-- C4, amended: for every non-2xx response the thrown message equals the
`error` field when that is present and non-empty (truthy), else the
`detail` field when that is truthy, else the literal `Request failed`. -/
theorem apiCall_error_message_truthy_selection :
    ∀ (s : Nat) (b : JsonBody), respOkStatus s = false →
    (jsTruthyStr b.error = true → apiCallResult ⟨s, b⟩ = Except.error (b.error.getD "")) ∧
    (jsTruthyStr b.error = false → jsTruthyStr b.detail = true →
      apiCallResult ⟨s, b⟩ = Except.error (b.detail.getD "")) ∧
    (jsTruthyStr b.error = false → jsTruthyStr b.detail = false →
      apiCallResult ⟨s, b⟩ = Except.error "Request failed") := by
  intro s b h
  refine ⟨?_, ?_, ?_⟩
  · intro he
    simp [apiCallResult, h, errMessage, he]
  · intro he hd
    simp [apiCallResult, h, errMessage, he, hd]
  · intro he hd
    simp [apiCallResult, h, errMessage, he, hd]

/-- Witness for `apiCall_error_message_truthy_selection`: a 404 with only a
`detail` field yields that detail text. -/
theorem apiCall_error_message_truthy_selection_witness :
    respOkStatus 404 = false ∧ jsTruthyStr (some "gone") = true ∧
    apiCallResult ⟨404, ⟨none, some "gone"⟩⟩ = Except.error "gone" :=
  ⟨by decide, by decide,
    (apiCall_error_message_truthy_selection 404 ⟨none, some "gone"⟩ (by decide)).2.1
      (by decide) (by decide)⟩

/-- C5: loading the dashboard with an empty credential store assigns the
entry-view redirect but does not halt the module — `init()` still runs and
issues the user-info and portfolio-list requests, so the initialization
sequence does reach network calls. -/
theorem dashboardPageLoad_unauth_redirect_still_fetches :
    isAuthenticatedS exUnauthSt = false ∧
    (dashboardPageLoad exFailOracle exUnauthSt).redirect = some "index.html" ∧
    (dashboardPageLoad exFailOracle exUnauthSt).requests = [ME_URL, PORTFOLIOS_URL] :=
  ⟨rfl, rfl, rfl⟩

/-- C6: a valuation failure for portfolio `pid` whose value element exists
sets exactly that element to the zero string; any valuation outcome leaves
every other element untouched; and any valuation outcome arriving after the
target element no longer exists leaves the whole state unchanged. -/
theorem valuationArrival_isolated_failure :
    (∀ (pid : Nat) (msg : String) (st : AppState),
      (st.dom (valueElemId pid)).isSome = true →
      (valuationArrival pid (Except.error msg) st).dom (valueElemId pid) = some "$0.00") ∧
    (∀ (pid : Nat) (outcome : Except String Valuation) (st : AppState) (k : String),
      k ≠ valueElemId pid →
      (valuationArrival pid outcome st).dom k = st.dom k) ∧
    (∀ (pid : Nat) (outcome : Except String Valuation) (st : AppState),
      st.dom (valueElemId pid) = none →
      valuationArrival pid outcome st = st) := by
  refine ⟨?_, ?_, ?_⟩
  · intro pid msg st h
    cases hd : st.dom (valueElemId pid) with
    | none => rw [hd] at h; simp at h
    | some v => simp [valuationArrival, hd, setDom]
  · intro pid outcome st k hk
    cases outcome with
    | ok v =>
      cases hd : st.dom (valueElemId pid) with
      | none => simp [valuationArrival, hd]
      | some w => simp [valuationArrival, hd, setDom, hk]
    | error e =>
      cases hd : st.dom (valueElemId pid) with
      | none => simp [valuationArrival, hd]
      | some w => simp [valuationArrival, hd, setDom, hk]
  · intro pid outcome st h
    cases outcome with
    | ok v => simp [valuationArrival, h]
    | error e => simp [valuationArrival, h]

/-- Witness for `valuationArrival_isolated_failure`: portfolio 1 fails and
shows the zero string, portfolio 2 keeps its value, and an arrival for the
absent element of portfolio 3 changes nothing. -/
theorem valuationArrival_isolated_failure_witness :
    (exSt.dom (valueElemId 1)).isSome = true ∧
    (valuationArrival 1 (Except.error "down") exSt).dom (valueElemId 1) = some "$0.00" ∧
    (valuationArrival 1 (Except.error "down") exSt).dom (valueElemId 2) = exSt.dom (valueElemId 2) ∧
    valuationArrival 3 (Except.error "down") exSt = exSt :=
  ⟨by decide,
   valuationArrival_isolated_failure.1 1 "down" exSt (by decide),
   valuationArrival_isolated_failure.2.1 1 (Except.error "down") exSt (valueElemId 2) (by decide),
   valuationArrival_isolated_failure.2.2 3 (Except.error "down") exSt (by decide)⟩

/-- C7: typing `b`, `bt`, `btc` with each keystroke inside the previous
300-unit window issues exactly one search call, for `btc` only (the short
first keystroke also hides the results); and any single input whose trimmed
length is below 2 hides the results and issues no call at all. -/
theorem debounce_coalesces_and_filters_short :
    (∀ (t0 t1 t2 : Nat), t0 ≤ t1 → t1 ≤ t2 → t1 < t0 + 300 → t2 < t1 + 300 →
      searchesOf (debounceRun none [(t0, "b"), (t1, "bt"), (t2, "btc")]) = ["btc"]) ∧
    (∀ (t : Nat) (s : String), (jsTrim s).length < 2 →
      debounceRun none [(t, s)] = [SearchActionT.hideResults]) := by
  constructor
  · intro t0 t1 t2 _h01 _h12 _hw1 hw2
    rw [debounceRun_short_none t0 "b" _ (by decide)]
    rw [debounceRun_long_none t1 "bt" _ (by decide)]
    rw [debounceRun_long_some (t1 + 300) (jsTrim "bt") t2 "btc" _ (Nat.not_le.mpr hw2) (by decide)]
    rw [debounceRun_nil_some]
    decide
  · intro t s h
    rw [debounceRun_short_none t s [] h]
    rfl

/-- Witness for `debounce_coalesces_and_filters_short` at keystroke times
0, 100, 200 and a lone short input. -/
theorem debounce_coalesces_and_filters_short_witness :
    ((0 : Nat) ≤ 100 ∧ (100 : Nat) ≤ 200 ∧ 100 < 0 + 300 ∧ 200 < 100 + 300 ∧
      searchesOf (debounceRun none [(0, "b"), (100, "bt"), (200, "btc")]) = ["btc"]) ∧
    ((jsTrim "b").length < 2 ∧ debounceRun none [(5, "b")] = [SearchActionT.hideResults]) :=
  ⟨⟨by decide, by decide, by decide, by decide,
    debounce_coalesces_and_filters_short.1 0 100 200 (by decide) (by decide) (by decide) (by decide)⟩,
   ⟨by decide, debounce_coalesces_and_filters_short.2 5 "b" (by decide)⟩⟩

/-- C8: the dashboard aggregate stats are computed from the fetched list
alone — the rendered portfolio count is the list length and the rendered
coin count is the sum of the holdings counts — and on the specification
scenario list they render as 2 and 3; no valuation outcome is consulted
(the function takes none). -/
theorem dashboardStats_from_list_only :
    (∀ (ps : List PortfolioItem) (st : AppState),
      (updateDashboardStatsS ps st).dom "portfolioCount" = some (toString ps.length) ∧
      (updateDashboardStatsS ps st).dom "coinCount"
        = some (toString (ps.map PortfolioItem.holdings_count).sum)) ∧
    (updateDashboardStatsS exPortfolioList exSt).dom "portfolioCount" = some "2" ∧
    (updateDashboardStatsS exPortfolioList exSt).dom "coinCount" = some "3" := by
  refine ⟨fun ps st => ⟨?_, ?_⟩, ?_, ?_⟩
  · simp [updateDashboardStatsS, setDom]
  · simp [updateDashboardStatsS, setDom, foldl_holdings_count]
  · rfl
  · rfl

/-- C9: saving with a falsy refresh argument writes the access slot and
leaves the stored refresh slot exactly as it was; the refresh slot is
written only when the argument is truthy. -/
theorem saveToken_refresh_write_if_truthy :
    ∀ (t : String) (r : Option String) (st : AppState),
    (jsTruthyStr r = false →
      (saveToken t r st).access = some t ∧ (saveToken t r st).refresh = st.refresh) ∧
    (jsTruthyStr r = true →
      (saveToken t r st).access = some t ∧ (saveToken t r st).refresh = r) := by
  intro t r st
  constructor
  · intro h
    simp [saveToken, h]
  · intro h
    simp [saveToken, h]

/-- Witness for `saveToken_refresh_write_if_truthy`: saving with an absent
refresh token keeps the previously stored one. -/
theorem saveToken_refresh_write_if_truthy_witness :
    jsTruthyStr none = false ∧
    (saveToken "A" none exSt).access = some "A" ∧
    (saveToken "A" none exSt).refresh = exSt.refresh :=
  ⟨by decide,
   ((saveToken_refresh_write_if_truthy "A" none exSt).1 (by decide)).1,
   ((saveToken_refresh_write_if_truthy "A" none exSt).1 (by decide)).2⟩

/-- C10: submitting the registration form with a password shorter than 8
characters issues no network request, leaves both stored tokens unchanged,
and shows the inline length error with the error styling. -/
theorem registerSubmit_short_password_no_request :
    ∀ (form : RegisterForm) (res : Except String Unit) (st : AppState),
    form.password.length < 8 →
    (registerSubmit form res st).requests = st.requests ∧
    (registerSubmit form res st).access = st.access ∧
    (registerSubmit form res st).refresh = st.refresh ∧
    (registerSubmit form res st).dom "message" = some "Password must be at least 8 characters" ∧
    (registerSubmit form res st).dom "messageClass" = some "message error" := by
  intro form res st h
  simp [registerSubmit, if_pos h, showMessageS, setDom]

/-- Witness for `registerSubmit_short_password_no_request` on a 7-character
password. -/
theorem registerSubmit_short_password_no_request_witness :
    exShortForm.password.length < 8 ∧
    (registerSubmit exShortForm (Except.ok ()) exSt).requests = exSt.requests ∧
    (registerSubmit exShortForm (Except.ok ()) exSt).access = exSt.access ∧
    (registerSubmit exShortForm (Except.ok ()) exSt).dom "message"
      = some "Password must be at least 8 characters" :=
  ⟨by decide,
   (registerSubmit_short_password_no_request exShortForm (Except.ok ()) exSt (by decide)).1,
   (registerSubmit_short_password_no_request exShortForm (Except.ok ()) exSt (by decide)).2.1,
   (registerSubmit_short_password_no_request exShortForm (Except.ok ()) exSt (by decide)).2.2.2.1⟩

end CryptoTracker
